import Mathlib

/-!
diamond-gl: buffer handles, typed buffer views and binding scopes

A shallow embedding of `include/diamond/buffer.hpp`.

* Client memory holding `GLuint` cells is explicit (`Memory`), because the
  wrappers of this header hold *pointers* to identifier cells.
* The graphics driver is explicit (`Driver`): a log of the calls it receives,
  the buffer names it hands out, a bounds-checked byte store per buffer name and
  the binding points per target.
* Every member function is a function on `World` (memory and driver).
* Machine integers are `Nat`/`Int` with explicit reduction modulo `2 ^ w`.
  The platform is LP64/LLP64: `GLsizei`, `GLint` are 32-bit signed, `GLuint`,
  `GLenum`, `GLbitfield` 32-bit unsigned, `GLintptr`, `GLsizeiptr` 64-bit signed
  and `size_t` 64-bit unsigned.
-/

namespace dgl

/-! ## Machine integers -/

/-- Conversion of an integer value to an unsigned type of `bits` bits. -/
def to_unsigned (bits : Nat) (z : Int) : Nat := (z % (2 : Int) ^ bits).toNat

/-- Conversion of an unsigned value to a signed type of `bits` bits
(two's complement reinterpretation of the low `bits` bits). -/
def to_signed (bits : Nat) (n : Nat) : Int :=
  if n % 2 ^ bits < 2 ^ (bits - 1) then ((n % 2 ^ bits : Nat) : Int)
  else ((n % 2 ^ bits : Nat) : Int) - (2 : Int) ^ bits

/-- The C++ expression `size * sizeof(T)` for a signed `size`: the signed operand
is converted to `size_t` and the product is taken modulo `2 ^ 64`. -/
def mul_sizeof (size : Int) (sizeofT : Nat) : Nat :=
  (to_unsigned 64 size * sizeofT) % 2 ^ 64

/-- The C++ expression `v.size() * sizeof(T)`: a product of two `size_t`. -/
def size_mul_sizeof (count : Nat) (sizeofT : Nat) : Nat :=
  (count * sizeofT) % 2 ^ 64

/-- Passing a `size_t` value to a `GLsizei` parameter. -/
def as_GLsizei (n : Nat) : Int := to_signed 32 n

/-- Passing a `size_t` value to a `GLsizeiptr` parameter. -/
def as_GLsizeiptr (n : Nat) : Int := to_signed 64 n

/-- The words of the specification: an integer taken modulo `2 ^ bits` and
reinterpreted as a signed integer of `bits` bits. -/
def wrap_signed (bits : Nat) (z : Int) : Int :=
  (z + (2 : Int) ^ (bits - 1)) % (2 : Int) ^ bits - (2 : Int) ^ (bits - 1)

def GL_STATIC_DRAW : Nat := 0x88E4
def GL_DYNAMIC_STORAGE_BIT : Nat := 0x0100
def GL_ARRAY_BUFFER : Nat := 0x8892
def GL_ELEMENT_ARRAY_BUFFER : Nat := 0x8893
def GL_UNIFORM_BUFFER : Nat := 0x8A11
def GL_SHADER_STORAGE_BUFFER : Nat := 0x90D2

/-! ## Client memory -/

/-- Client memory of `GLuint` cells. `cell a` is whatever the cell at address `a`
holds (indeterminate until written); `brk` is the next address that an
allocation returns. -/
structure Memory where
  cell : Nat → Nat
  brk : Nat

namespace Memory

/-- Allocation of `n` cells (`new GLuint[n]`, or a local variable): the cells are
not initialised. -/
def alloc (m : Memory) (n : Nat) : Nat × Memory :=
  (m.brk, { m with brk := m.brk + n })

def write (m : Memory) (p v : Nat) : Memory :=
  { m with cell := fun a => if a = p then v else m.cell a }

/-- Write of the array `vs` to the cells `p, p + 1, ...`. -/
def write_array (m : Memory) (p : Nat) (vs : List Nat) : Memory :=
  { m with cell := fun a => if p ≤ a ∧ a < p + vs.length then vs.getD (a - p) 0 else m.cell a }

/-- Read of `n` consecutive cells starting at `p`. -/
def read_array (m : Memory) (p n : Nat) : List Nat :=
  (List.range n).map (fun i => m.cell (p + i))

end Memory

/-! ## The driver -/

/-- One call into the driver, with its arguments. A pointer to `GLuint` that the
driver reads is logged as the values it reads through it; a pointer it writes
through is logged as the address; `const void *` is logged as the caller's bytes
(`none` for `nullptr`). -/
inductive Call where
  | createBuffers (n : Int) (buffers : Nat)
  | deleteBuffers (n : Int) (buffers : List Nat)
  | getNamedBufferSubData (buffer : Nat) (offset : Int) (size : Int)
  | namedBufferData (buffer : Nat) (size : Int) (data : Option (List Nat)) (usage : Nat)
  | namedBufferSubData (buffer : Nat) (offset : Int) (size : Int) (data : Option (List Nat))
  | namedBufferStorage (buffer : Nat) (size : Int) (data : Option (List Nat)) (flags : Nat)
  | copyNamedBufferSubData (readBuffer writeBuffer : Nat) (readOffset writeOffset size : Int)
  | bindBuffer (target buffer : Nat)
  | bindBufferBase (target index buffer : Nat)
  | bindBufferRange (target index buffer : Nat) (offset : Int) (size : Int)
  | bindBuffersBase (target first : Nat) (count : Int) (buffers : List Nat)
  | bindBuffersRange (target first : Nat) (count : Int) (buffers : List Nat)
      (offsets sizes : Option (List Int))
  deriving DecidableEq

/-- What the driver records on its error channel. -/
inductive Fault where
  | invalid_value
  | invalid_operation
  | client_overrun
  deriving DecidableEq

/-- State of the driver. `names k` is the `k`-th buffer name the driver hands
out and `issued` counts the names handed out so far; `store` is the data store
of each buffer name (`none`: no storage); `indexed target i` is the buffer bound
at indexed binding point `i` of `target` and `generic target` the buffer bound
at the target itself (`0`: nothing bound). -/
structure Driver where
  log : List Call
  errors : List Fault
  names : Nat → Nat
  issued : Nat
  store : Nat → Option (List Nat)
  indexed : Nat → Nat → Nat
  generic : Nat → Nat

/-- Client memory together with the driver. -/
structure World where
  mem : Memory
  gl : Driver

namespace Driver

def record (d : Driver) (c : Call) : Driver := { d with log := d.log ++ [c] }

def fail (d : Driver) (f : Fault) : Driver := { d with errors := d.errors ++ [f] }

end Driver

/-- The bytes a transfer of `size` bytes reads from the caller's array; `none`
when the transfer would read through `nullptr` or past the end of the array. -/
def client_bytes (data : Option (List Nat)) (size : Nat) : Option (List Nat) :=
  match data with
  | none => if size = 0 then some [] else none
  | some bs => if size ≤ bs.length then some (bs.take size) else none

/-- Overwrite of the bytes `[off, off + bs.length)` of `st` by `bs`. -/
def splice (st : List Nat) (off : Nat) (bs : List Nat) : List Nat :=
  st.take off ++ bs ++ st.drop (off + bs.length)

/-- Model of `glCreateBuffers(n, buffers)`: the next `n` names of the driver are
written to `buffers[0 .. n)`. -/
def glCreateBuffers (w : World) (n : Int) (buffers : Nat) : World :=
  let d := w.gl.record (Call.createBuffers n buffers)
  if n < 0 then { w with gl := d.fail Fault.invalid_value }
  else
    let ids := (List.range n.toNat).map (fun i => d.names (d.issued + i))
    { mem := w.mem.write_array buffers ids,
      gl := { d with issued := d.issued + n.toNat } }

/-- Model of `glDeleteBuffers(n, buffers)`: the `n` names at `buffers` lose their
storage and every binding point holding one of them reverts to `0`; the name
`0` is ignored. -/
def glDeleteBuffers (w : World) (n : Int) (buffers : Nat) : World :=
  let ids := w.mem.read_array buffers n.toNat
  let d := w.gl.record (Call.deleteBuffers n ids)
  if n < 0 then { w with gl := d.fail Fault.invalid_value }
  else
    { w with gl :=
      { d with
        store := fun b => if b ≠ 0 ∧ b ∈ ids then none else d.store b,
        indexed := fun t i => if d.indexed t i ≠ 0 ∧ d.indexed t i ∈ ids then 0 else d.indexed t i,
        generic := fun t => if d.generic t ≠ 0 ∧ d.generic t ∈ ids then 0 else d.generic t } }

/-- Model of `glGetNamedBufferSubData(buffer, offset, size, data)`: `out` is the
caller's destination memory, the result is that memory after the call. The
range must lie inside the buffer's storage. -/
def glGetNamedBufferSubData (d : Driver) (buffer : Nat) (offset size : Int)
    (out : List Nat) : List Nat × Driver :=
  let d1 := d.record (Call.getNamedBufferSubData buffer offset size)
  match d.store buffer with
  | none => (out, d1.fail Fault.invalid_operation)
  | some st =>
    if 0 ≤ offset ∧ 0 ≤ size ∧ offset + size ≤ st.length then
      ((st.drop offset.toNat).take size.toNat ++ out.drop size.toNat, d1)
    else (out, d1.fail Fault.invalid_value)

/-- Model of `glNamedBufferData(buffer, size, data, usage)`: the buffer gets a
new store of `size` bytes, a copy of the caller's bytes, or zero bytes standing
for the unspecified contents when `data` is `nullptr`. -/
def glNamedBufferData (d : Driver) (buffer : Nat) (size : Int) (data : Option (List Nat))
    (usage : Nat) : Driver :=
  let d1 := d.record (Call.namedBufferData buffer size data usage)
  if size < 0 then d1.fail Fault.invalid_value
  else
    match data with
    | none => { d1 with store := fun b => if b = buffer then some (List.replicate size.toNat 0) else d1.store b }
    | some _ =>
      match client_bytes data size.toNat with
      | none => d1.fail Fault.client_overrun
      | some bs => { d1 with store := fun b => if b = buffer then some bs else d1.store b }

/-- Model of `glNamedBufferSubData(buffer, offset, size, data)`: the range must
lie inside the storage the buffer already has; otherwise the call is rejected
and the store is left as it was. -/
def glNamedBufferSubData (d : Driver) (buffer : Nat) (offset size : Int)
    (data : Option (List Nat)) : Driver :=
  let d1 := d.record (Call.namedBufferSubData buffer offset size data)
  match d.store buffer with
  | none => d1.fail Fault.invalid_operation
  | some st =>
    if 0 ≤ offset ∧ 0 ≤ size ∧ offset + size ≤ st.length then
      match client_bytes data size.toNat with
      | none => d1.fail Fault.client_overrun
      | some bs => { d1 with store := fun b => if b = buffer then some (splice st offset.toNat bs) else d1.store b }
    else d1.fail Fault.invalid_value

/-- Model of `glNamedBufferStorage(buffer, size, data, flags)`: as
`glNamedBufferData`, for a positive size (immutability is not tracked). -/
def glNamedBufferStorage (d : Driver) (buffer : Nat) (size : Int) (data : Option (List Nat))
    (flags : Nat) : Driver :=
  let d1 := d.record (Call.namedBufferStorage buffer size data flags)
  if size ≤ 0 then d1.fail Fault.invalid_value
  else
    match data with
    | none => { d1 with store := fun b => if b = buffer then some (List.replicate size.toNat 0) else d1.store b }
    | some _ =>
      match client_bytes data size.toNat with
      | none => d1.fail Fault.client_overrun
      | some bs => { d1 with store := fun b => if b = buffer then some bs else d1.store b }

/-- Model of `glCopyNamedBufferSubData`: both ranges must lie inside the
storage of their buffers. -/
def glCopyNamedBufferSubData (d : Driver) (readBuffer writeBuffer : Nat)
    (readOffset writeOffset size : Int) : Driver :=
  let d1 := d.record (Call.copyNamedBufferSubData readBuffer writeBuffer readOffset writeOffset size)
  match d.store readBuffer, d.store writeBuffer with
  | some rs, some ws =>
    if 0 ≤ readOffset ∧ 0 ≤ writeOffset ∧ 0 ≤ size ∧ readOffset + size ≤ rs.length
        ∧ writeOffset + size ≤ ws.length then
      { d1 with store := fun b =>
          if b = writeBuffer then
            some (splice ws writeOffset.toNat ((rs.drop readOffset.toNat).take size.toNat))
          else d1.store b }
    else d1.fail Fault.invalid_value
  | _, _ => d1.fail Fault.invalid_operation

/-- Model of `glBindBuffer(target, buffer)`. -/
def glBindBuffer (d : Driver) (target buffer : Nat) : Driver :=
  let d1 := d.record (Call.bindBuffer target buffer)
  { d1 with generic := fun t => if t = target then buffer else d1.generic t }

/-- Model of `glBindBufferBase(target, index, buffer)`: binding point `index` of
`target` (and the target itself) now holds `buffer`; `buffer = 0` unbinds. -/
def glBindBufferBase (d : Driver) (target index buffer : Nat) : Driver :=
  let d1 := d.record (Call.bindBufferBase target index buffer)
  { d1 with
    indexed := fun t i => if t = target ∧ i = index then buffer else d1.indexed t i,
    generic := fun t => if t = target then buffer else d1.generic t }

/-- Model of `glBindBufferRange(target, index, buffer, offset, size)`. -/
def glBindBufferRange (d : Driver) (target index buffer : Nat) (offset size : Int) : Driver :=
  let d1 := d.record (Call.bindBufferRange target index buffer offset size)
  { d1 with
    indexed := fun t i => if t = target ∧ i = index then buffer else d1.indexed t i,
    generic := fun t => if t = target then buffer else d1.generic t }

/-- Model of `glBindBuffersBase(target, first, count, buffers)`: the driver reads
`count` names at `buffers` and binds the `i`-th of them at binding point
`first + i`. -/
def glBindBuffersBase (w : World) (target first : Nat) (count : Int) (buffers : Nat) : World :=
  let ids := w.mem.read_array buffers count.toNat
  let d1 := w.gl.record (Call.bindBuffersBase target first count ids)
  if count < 0 then { w with gl := d1.fail Fault.invalid_value }
  else
    { w with gl :=
      { d1 with indexed := fun t i =>
          if t = target ∧ first ≤ i ∧ i < first + ids.length then ids.getD (i - first) 0
          else d1.indexed t i } }

/-- Model of `glBindBuffersRange(target, first, count, buffers, offsets, sizes)`. -/
def glBindBuffersRange (w : World) (target first : Nat) (count : Int) (buffers : Nat)
    (offsets sizes : Option (List Int)) : World :=
  let ids := w.mem.read_array buffers count.toNat
  let d1 := w.gl.record (Call.bindBuffersRange target first count ids offsets sizes)
  if count < 0 then { w with gl := d1.fail Fault.invalid_value }
  else
    { w with gl :=
      { d1 with indexed := fun t i =>
          if t = target ∧ first ≤ i ∧ i < first + ids.length then ids.getD (i - first) 0
          else d1.indexed t i } }

/-! ## The class `base` of `opengl.hpp` -/

/-- Modelled from the spec: the class `base` of `opengl.hpp`, which is not part
of the sources at hand. A wrapper holds the address `globj` of the cell that
stores its 32-bit unsigned identifier ("wrapper objects pointing into slots of
that array"); the macro `thisref` is the wrapper itself, which converts to the
stored identifier where the driver takes a `GLuint` and to the address of the
cell where the driver takes a `GLuint *`. Copying a wrapper copies the address. -/
structure base where
  globj : Nat
  deriving DecidableEq

namespace base

/-- Modelled from the spec: `base::allocate(n)` gives the wrapper `n` fresh
identifier cells of its own. -/
def allocate (m : Memory) (n : Nat) : base × Memory :=
  let (p, m1) := m.alloc n
  (⟨p⟩, m1)

/-- Modelled from the spec: `set_object(obj)` adopts the identifier cell `obj`
prepared elsewhere. -/
def set_object (obj : Nat) : base := ⟨obj⟩

/-- Modelled from the spec: `set_value(v)` stores the identifier `v` in the
wrapper's cell. -/
def set_value (m : Memory) (b : base) (v : Nat) : Memory := m.write b.globj v

/-- Modelled from the spec: the implicit conversion of a wrapper to its raw
identifier. -/
def value (m : Memory) (b : base) : Nat := m.cell b.globj

end base

/-- The sentinel stored by `set_value(-1)`: `-1` converted to `GLuint`. -/
def sentinel : Nat := to_unsigned 32 (-1)

/-- Modelled from the spec: `buffer_storage_bits` of `opengl.hpp`, the capability
flags of an immutable allocation, constructed from a `GLbitfield`. -/
structure buffer_storage_bits where
  bitfield : Nat
  deriving DecidableEq

/-! ## `void_buffer<T>`: the handle wrapper -/

abbrev void_buffer := base

namespace void_buffer

/-- The constructor `void_buffer<T>(GLuint * allocationPointer)`. -/
def ctor_adopt (allocationPointer : Nat) : void_buffer := base.set_object allocationPointer

/-- The constructor `void_buffer<T>()`. -/
def ctor (w : World) : void_buffer × World :=
  let (b, m1) := base.allocate w.mem 1
  (b, glCreateBuffers { w with mem := m1 } 1 b.globj)

/-- The destructor `~void_buffer<T>()`. -/
def dtor (w : World) (b : void_buffer) : World :=
  let w1 := glDeleteBuffers w 1 b.globj
  { w1 with mem := base.set_value w1.mem b sentinel }

def get_subdata (w : World) (b : void_buffer) (offset size : Int) (data : List Nat) :
    List Nat × World :=
  let r := glGetNamedBufferSubData w.gl (base.value w.mem b) offset size data
  (r.1, { w with gl := r.2 })

/-- The member `data(size, data, usage)`; `usage` defaults to `GL_STATIC_DRAW`. -/
def data (w : World) (b : void_buffer) (size : Int) (data : Option (List Nat)) (usage : Nat) :
    World :=
  { w with gl := glNamedBufferData w.gl (base.value w.mem b) size data usage }

def subdata (w : World) (b : void_buffer) (offset size : Int) (data : Option (List Nat)) :
    World :=
  { w with gl := glNamedBufferSubData w.gl (base.value w.mem b) offset size data }

/-- The member `storage(size, data, flags)`; `data` defaults to `nullptr` and
`flags` to `GL_DYNAMIC_STORAGE_BIT`. -/
def storage (w : World) (b : void_buffer) (size : Int) (data : Option (List Nat))
    (flags : buffer_storage_bits) : World :=
  { w with gl := glNamedBufferStorage w.gl (base.value w.mem b) size data flags.bitfield }

def copydata (w : World) (b : void_buffer) (dest : void_buffer)
    (readOffset writeOffset size : Int) : World :=
  let d := glCopyNamedBufferSubData w.gl (base.value w.mem b) (base.value w.mem dest)
    readOffset writeOffset size
  { w with gl := d }

end void_buffer

/-! ## `structured_buffer<T>`: the typed view -/

/-- An element type `T`: `size` is `sizeof(T)`, `enc` gives the object
representation (the `size` bytes) of a value and `dec` reads a value back from
its object representation. -/
structure ElemType (α : Type) where
  size : Nat
  enc : α → List Nat
  dec : List Nat → α
  size_pos : 0 < size
  enc_length : ∀ a, (enc a).length = size
  dec_enc : ∀ a, dec (enc a) = a

/-- The bytes of the array of a `std::vector<T>` (what `v.data()` points to). -/
def encode_all {α : Type} (E : ElemType α) : List α → List Nat
  | [] => []
  | a :: v => E.enc a ++ encode_all E v

/-- The `n` elements of type `T` held by the array whose bytes are `bs`. -/
def decode_all {α : Type} (E : ElemType α) : Nat → List Nat → List α
  | 0, _ => []
  | n + 1, bs => E.dec (bs.take E.size) :: decode_all E n (bs.drop E.size)

/-- Little-endian bytes of a number, `k` of them. -/
def le_bytes : Nat → Nat → List Nat
  | 0, _ => []
  | k + 1, x => x % 256 :: le_bytes k (x / 256)

/-- The number whose little-endian bytes are given. -/
def le_value : List Nat → Nat
  | [] => 0
  | b :: bs => b + 256 * le_value bs

abbrev structured_buffer := void_buffer

/-- A `std::vector<structured_buffer<T>>`: its elements and the capacity of its
array. -/
structure buffer_vector where
  elems : List structured_buffer
  capacity : Nat

/-- Destruction of the elements of an array of views, first to last. -/
def destroy_all (w : World) : List structured_buffer → World
  | [] => w
  | b :: bs => destroy_all (void_buffer.dtor w b) bs

/-- `std::vector::push_back`: the new element is a copy of `x`. When the array
is full, the vector moves to an array of capacity `grow capacity` (the growth
policy of the standard library): the elements are copied there and the old
elements are destroyed. The destructor declared by `void_buffer` suppresses the
move constructor, so an element is always constructed as a copy. -/
def buffer_vector.push_back (grow : Nat → Nat) (w : World) (v : buffer_vector)
    (x : structured_buffer) : buffer_vector × World :=
  if v.elems.length < v.capacity then ({ v with elems := v.elems ++ [x] }, w)
  else ({ elems := v.elems ++ [x], capacity := grow v.capacity }, destroy_all w v.elems)

namespace structured_buffer

/-- The constructor `structured_buffer<T>(GLuint * allocationPointer)`. -/
def ctor_adopt (allocationPointer : Nat) : structured_buffer :=
  void_buffer.ctor_adopt allocationPointer

/-- The constructor `structured_buffer<T>()`. -/
def ctor (w : World) : structured_buffer × World := void_buffer.ctor w

/-- The body of the loop of `create(GLint n)` for the index `pt`: the temporary
`structured_buffer<T>(objects + pt)` is copied into the vector and destroyed at
the end of the statement. -/
def create_step (grow : Nat → Nat) (objects : Nat) (s : buffer_vector × World) (pt : Nat) :
    buffer_vector × World :=
  let tmp := ctor_adopt (objects + pt)
  let s1 := buffer_vector.push_back grow s.2 s.1 tmp
  (s1.1, void_buffer.dtor s1.2 tmp)

/-- The static member `create(GLint n)`. `none`: `new GLuint[n]` throws for a
negative `n`. -/
def create (grow : Nat → Nat) (w : World) (n : Int) : Option (List structured_buffer × World) :=
  if n < 0 then none
  else
    let a := w.mem.alloc n.toNat
    let objects := a.1
    let r := (List.range n.toNat).foldl (create_step grow objects)
      ({ elems := [], capacity := 0 }, { w with mem := a.2 })
    some (r.1.elems, glCreateBuffers r.2 n objects)

/-- The static member `_make_tuple<T...>(a, index_sequence<Is...>)`: one view per
type of the list, the `i`-th adopting the cell `a + i`. A type of the list is
given by its `sizeof`; each view is paired with its element type. The views are
created with `new` and copied into the tuple, none is destroyed; the tuple is
returned by value without a further copy (copy elision). -/
def _make_tuple (ts : List Nat) (a : Nat) : List (Nat × structured_buffer) :=
  List.zipWith (fun t i => (t, ctor_adopt (a + i))) ts (List.range ts.length)

/-- The static member `create<T...>()`. -/
def create_tuple (w : World) (ts : List Nat) : List (Nat × structured_buffer) × World :=
  let n := ts.length
  let a := w.mem.alloc n
  let objects := a.1
  let w1 := glCreateBuffers { w with mem := a.2 } (as_GLsizei n) objects
  (_make_tuple ts objects, w1)

def get_subdata (sizeofT : Nat) (w : World) (b : structured_buffer) (offset size : Int)
    (data : List Nat) : List Nat × World :=
  void_buffer.get_subdata w b offset (as_GLsizei (mul_sizeof size sizeofT)) data

def data (sizeofT : Nat) (w : World) (b : structured_buffer) (size : Int)
    (data : Option (List Nat)) (usage : Nat) : World :=
  void_buffer.data w b (as_GLsizei (mul_sizeof size sizeofT)) data usage

def subdata (sizeofT : Nat) (w : World) (b : structured_buffer) (offset size : Int)
    (data : Option (List Nat)) : World :=
  void_buffer.subdata w b offset (as_GLsizei (mul_sizeof size sizeofT)) data

def storage (sizeofT : Nat) (w : World) (b : structured_buffer) (size : Int)
    (data : Option (List Nat)) (flags : Nat) : World :=
  void_buffer.storage w b (as_GLsizei (mul_sizeof size sizeofT)) data ⟨flags⟩

def copydata (sizeofT : Nat) (w : World) (b : structured_buffer) (dest : void_buffer)
    (readOffset writeOffset size : Int) : World :=
  void_buffer.copydata w b dest readOffset writeOffset (as_GLsizeiptr (mul_sizeof size sizeofT))

/-- The overload `data(const std::vector<T>& data, usage)`: the member of line
105 forwards to the member template of line 128, modelled here. -/
def data_vector {α : Type} (E : ElemType α) (w : World) (b : structured_buffer)
    (data : List α) (usage : Nat) : World :=
  void_buffer.data w b (as_GLsizei (size_mul_sizeof data.length E.size))
    (some (encode_all E data)) usage

/-- The overload `subdata(offset, const std::vector<T>& data)`: the member of
line 109 forwards to the member template of line 134, modelled here. -/
def subdata_vector {α : Type} (E : ElemType α) (w : World) (b : structured_buffer)
    (offset : Int) (data : List α) : World :=
  void_buffer.subdata w b offset (as_GLsizei (size_mul_sizeof data.length E.size))
    (some (encode_all E data))

/-- The overload `get_subdata(offset, std::vector<T>& vctr)`: the driver writes
into the array of the caller's vector `vctr`, which is returned (the member of
line 117 forwards to the member template of line 148, modelled here). -/
def get_subdata_vector {α : Type} (E : ElemType α) (w : World) (b : structured_buffer)
    (offset : Int) (vctr : List α) : List α × World :=
  let r := void_buffer.get_subdata w b offset
    (as_GLsizei (size_mul_sizeof vctr.length E.size)) (encode_all E vctr)
  (decode_all E vctr.length r.1, r.2)

/-- Lines 141 and 142 of the overload `get_subdata(offset, size)`: the local
`std::vector<T> vctr(size)` of `size` value-initialised elements (all bytes
zero) is filled by the driver. The result is the local vector as it is when the
return statement runs. -/
def get_subdata_count_local {α : Type} (E : ElemType α) (w : World) (b : structured_buffer)
    (offset size : Int) : List α × World :=
  get_subdata_vector E w b offset
    (List.replicate size.toNat (E.dec (List.replicate E.size 0)))

/-- The overload `get_subdata(offset, size)` of lines 139 to 144 (the member of
line 113 forwards to it), whose return type is `std::vector<T>&` and whose
return statement is `return vctr;` for the local `vctr`. The local is destroyed
when the function returns and its destructor frees the array, so the returned
reference refers to no vector: the first component is what the caller can read
through the returned reference, `none`. The outer `none`: the constructor of the
vector throws for a negative `size`. -/
def get_subdata_count {α : Type} (E : ElemType α) (w : World) (b : structured_buffer)
    (offset size : Int) : Option (Option (List α) × World) :=
  if size < 0 then none
  else some (none, (get_subdata_count_local E w b offset size).2)

end structured_buffer

/-! ## Binding-target categories and binding scopes -/

abbrev _buffer_context := base

/-- The class `buffer_binding`: the cell of its `base` subobject holds the slot
number, `gltarget` points to the category. -/
structure buffer_binding where
  self : base
  gltarget : _buffer_context
  deriving DecidableEq

namespace buffer_binding

/-- The constructor `buffer_binding(btarget, binding)`; `binding` defaults to 0. -/
def ctor (w : World) (btarget : _buffer_context) (binding : Nat) : buffer_binding × World :=
  let a := base.allocate w.mem 1
  ({ self := a.1, gltarget := btarget }, { w with mem := base.set_value a.2 a.1 binding })

/-- The destructor `~buffer_binding()`:
`glBindBufferBase(*gltarget, thisref, 0)`. -/
def dtor (w : World) (s : buffer_binding) : World :=
  { w with gl := glBindBufferBase w.gl (base.value w.mem s.gltarget) (base.value w.mem s.self) 0 }

/-- The member `bind(structured_buffer<T>& buf)`. -/
def bind (w : World) (s : buffer_binding) (buf : structured_buffer) : World :=
  let d := glBindBufferBase w.gl (base.value w.mem s.gltarget) (base.value w.mem s.self)
    (base.value w.mem buf)
  { w with gl := d }

/-- The member `bind_range(structured_buffer<T>& buf, offset, size)`. -/
def bind_range (w : World) (s : buffer_binding) (buf : structured_buffer) (offset size : Int) :
    World :=
  let d := glBindBufferRange w.gl (base.value w.mem s.gltarget) (base.value w.mem s.self)
    (base.value w.mem buf) offset size
  { w with gl := d }

/-- The member `bind(std::vector<structured_buffer<T>>& buf)`. The local
`GLuint handler = buf[0]` is one fresh cell of client memory, and the driver is
given its address together with the count `buf.size()`. `none`: `buf[0]` of an
empty vector. -/
def bind_vector (w : World) (s : buffer_binding) (buf : List structured_buffer) : Option World :=
  match buf with
  | [] => none
  | b0 :: _ =>
    let a := w.mem.alloc 1
    let handler := a.1
    let m1 := a.2.write handler (base.value w.mem b0)
    let w1 := glBindBuffersBase { w with mem := m1 } (base.value w.mem s.gltarget)
      (base.value w.mem s.self) (as_GLsizei buf.length) handler
    some { w1 with mem := { w1.mem with brk := w.mem.brk } }

/-- The member `bind_range(std::vector<structured_buffer<T>>& buf, offsets, sizes)`. -/
def bind_range_vector (w : World) (s : buffer_binding) (buf : List structured_buffer)
    (offsets sizes : Option (List Int)) : Option World :=
  match buf with
  | [] => none
  | b0 :: _ =>
    let a := w.mem.alloc 1
    let handler := a.1
    let m1 := a.2.write handler (base.value w.mem b0)
    let w1 := glBindBuffersRange { w with mem := m1 } (base.value w.mem s.gltarget)
      (base.value w.mem s.self) (as_GLsizei buf.length) handler offsets sizes
    some { w1 with mem := { w1.mem with brk := w.mem.brk } }

end buffer_binding

namespace _buffer_context

/-- The constructor `_buffer_context(binding)`: the cell holds the target
enumeration value. -/
def ctor (w : World) (binding : Nat) : _buffer_context × World :=
  let a := base.allocate w.mem 1
  (a.1, { w with mem := base.set_value a.2 a.1 binding })

/-- The member `create_binding(binding)`: `return buffer_binding(thisref, binding);`
in a function that returns `buffer_binding&&`. The scope is a temporary of the
return statement: it is constructed, the returned reference is bound to it, and
it is destroyed at the end of the return statement, before the caller gets the
reference. The first component is the object the returned reference refers to. -/
def create_binding (w : World) (c : _buffer_context) (binding : Nat) : buffer_binding × World :=
  let r := buffer_binding.ctor w c binding
  (r.1, buffer_binding.dtor r.2 r.1)

/-- The member `bind(buffer& buf)`. -/
def bind (w : World) (c : _buffer_context) (buf : structured_buffer) : World :=
  { w with gl := glBindBuffer w.gl (base.value w.mem c) (base.value w.mem buf) }

end _buffer_context

/-! ## A concrete driver and concrete element types -/

/-- A world before any call: no buffer has storage, nothing is bound, the driver
hands out the names 1, 2, 3, ... and every memory cell holds `0xCDCDCDCD`. -/
def world0 : World :=
  { mem := { cell := fun _ => 0xCDCDCDCD, brk := 0 },
    gl := { log := [], errors := [], names := fun k => k + 1, issued := 0,
            store := fun _ => none, indexed := fun _ _ => 0, generic := fun _ => 0 } }

/-- The element type `uint32_t`: four little-endian bytes. -/
def uint32 : ElemType (Fin (2 ^ 32)) where
  size := 4
  enc := fun x => le_bytes 4 x.val
  dec := fun bs => ⟨le_value (bs.take 4) % 2 ^ 32, Nat.mod_lt _ (Nat.two_pow_pos 32)⟩
  size_pos := by decide
  enc_length := by intro a; rfl
  dec_enc := by
    intro a
    apply Fin.ext
    have h := a.isLt
    simp only [le_bytes, le_value, List.take]
    omega

/-! ## Concrete scenarios -/

/-- The scenario of the ranged write: a view over `uint32_t` is created, given
the four elements 1, 2, 3, 4 with `data`, written with the pointer overload of
`subdata` at byte offset 4 with the size argument `size` and the array 9, 9, and
read back in full with `get_subdata`. -/
def write_range_scenario (size : Int) : List (Fin (2 ^ 32)) × World :=
  let v := structured_buffer.ctor world0
  let w1 := structured_buffer.data_vector uint32 v.2 v.1 [1, 2, 3, 4] GL_STATIC_DRAW
  let w2 := structured_buffer.subdata uint32.size w1 v.1 4 size (some (encode_all uint32 [9, 9]))
  structured_buffer.get_subdata_vector uint32 w2 v.1 0 [0, 0, 0, 0]

/-- The same scenario with the vector overload `subdata(offset, data)`. -/
def write_range_vector_scenario : List (Fin (2 ^ 32)) × World :=
  let v := structured_buffer.ctor world0
  let w1 := structured_buffer.data_vector uint32 v.2 v.1 [1, 2, 3, 4] GL_STATIC_DRAW
  let w2 := structured_buffer.subdata_vector uint32 w1 v.1 4 [9, 9]
  structured_buffer.get_subdata_vector uint32 w2 v.1 0 [0, 0, 0, 0]

/-- The same scenario with the untyped `void_buffer::subdata(4, 8, data)`. -/
def write_range_untyped_scenario : List (Fin (2 ^ 32)) × World :=
  let v := structured_buffer.ctor world0
  let w1 := structured_buffer.data_vector uint32 v.2 v.1 [1, 2, 3, 4] GL_STATIC_DRAW
  let w2 := void_buffer.subdata w1 v.1 4 8 (some (encode_all uint32 [9, 9]))
  structured_buffer.get_subdata_vector uint32 w2 v.1 0 [0, 0, 0, 0]

/-- A view over `uint32_t` whose store holds the four elements 1, 2, 3, 4. -/
def stored_scenario : structured_buffer × World :=
  let v := structured_buffer.ctor world0
  (v.1, structured_buffer.data_vector uint32 v.2 v.1 [1, 2, 3, 4] GL_STATIC_DRAW)

/-- The scenario of the read-back by count: the store of `stored_scenario` is
written with the elements 9, 9 at byte offset 4 by the vector overload of
`subdata`; two elements are then to be read at byte offset 4. -/
def read_back_scenario : structured_buffer × World :=
  (stored_scenario.1,
    structured_buffer.subdata_vector uint32 stored_scenario.2 stored_scenario.1 4 [9, 9])

/-- The scenario of the scope teardown on the shader-storage category: a scope
at slot 0 holds the buffer named 1 and a scope at slot 3 holds the buffer named
2. The result is that world and the scope at slot 3, which is about to be
destroyed. -/
def scope_teardown_scenario : World × buffer_binding :=
  let c := _buffer_context.ctor world0 GL_SHADER_STORAGE_BUFFER
  let a := structured_buffer.ctor c.2
  let b := structured_buffer.ctor a.2
  let s0 := buffer_binding.ctor b.2 c.1 0
  let w1 := buffer_binding.bind s0.2 s0.1 a.1
  let s3 := buffer_binding.ctor w1 c.1 3
  (buffer_binding.bind s3.2 s3.1 b.1, s3.1)

/-- The scenario of the batched bind: two views, named 1 and 2 by the driver,
are bound as a collection by a scope at slot 3 of the shader-storage category. -/
def multi_bind_scenario : Option World :=
  let c := _buffer_context.ctor world0 GL_SHADER_STORAGE_BUFFER
  let a := structured_buffer.ctor c.2
  let b := structured_buffer.ctor a.2
  let s := buffer_binding.ctor b.2 c.1 3
  buffer_binding.bind_vector s.2 s.1 [a.1, b.1]

/-- The shader-storage category, constructed in the world before any call (the
global `buffer_target::shader_storage`). -/
def shader_storage_scenario : _buffer_context × World :=
  _buffer_context.ctor world0 GL_SHADER_STORAGE_BUFFER

/-! ## Machine integers: lemmas -/

theorem to_unsigned_cast (bits : Nat) (z : Int) :
    ((to_unsigned bits z : Nat) : Int) = z % (2 : Int) ^ bits := by
  unfold to_unsigned
  apply Int.toNat_of_nonneg
  apply Int.emod_nonneg
  positivity

theorem mul_sizeof_mod (k : Nat) (hk : k ≤ 64) (c : Int) (sz : Nat) :
    (((mul_sizeof c sz) % 2 ^ k : Nat) : Int) = (c * sz) % (2 : Int) ^ k := by
  unfold mul_sizeof
  have hd : 2 ^ k ∣ 2 ^ 64 := Nat.pow_dvd_pow 2 hk
  rw [Nat.mod_mod_of_dvd _ hd]
  have hdi : ((2 : Int) ^ k) ∣ (2 : Int) ^ 64 := pow_dvd_pow 2 hk
  push_cast
  rw [to_unsigned_cast, Int.mul_emod, Int.emod_emod_of_dvd _ hdi, ← Int.mul_emod]

theorem as_GLsizei_mul_sizeof (c : Int) (sz : Nat) :
    as_GLsizei (mul_sizeof c sz) = wrap_signed 32 (c * sz) := by
  have h := mul_sizeof_mod 32 (by decide) c sz
  unfold as_GLsizei to_signed wrap_signed
  generalize c * (sz : Int) = z at h
  generalize mul_sizeof c sz % 2 ^ 32 = m at h
  norm_num at h ⊢
  split <;> omega

theorem as_GLsizeiptr_mul_sizeof (c : Int) (sz : Nat) :
    as_GLsizeiptr (mul_sizeof c sz) = wrap_signed 64 (c * sz) := by
  have h := mul_sizeof_mod 64 (by decide) c sz
  unfold as_GLsizeiptr to_signed wrap_signed
  generalize c * (sz : Int) = z at h
  generalize mul_sizeof c sz % 2 ^ 64 = m at h
  norm_num at h ⊢
  split <;> omega

theorem wrap_signed_32_of_range (z : Int) (h : -2 ^ 31 ≤ z ∧ z < 2 ^ 31) :
    wrap_signed 32 z = z := by
  unfold wrap_signed
  norm_num at h ⊢
  omega

theorem wrap_signed_64_of_range (z : Int) (h : -2 ^ 63 ≤ z ∧ z < 2 ^ 63) :
    wrap_signed 64 z = z := by
  unfold wrap_signed
  norm_num at h ⊢
  omega

theorem as_GLsizei_size_mul_sizeof (n sz : Nat) (h : n * sz < 2 ^ 31) :
    as_GLsizei (size_mul_sizeof n sz) = ((n * sz : Nat) : Int) := by
  unfold as_GLsizei to_signed size_mul_sizeof
  generalize n * sz = k at h
  norm_num at h ⊢
  split <;> omega

/-! ## The handle wrapper -/

/-- C5: destroying a handle wrapper that holds the identifier `h` hands the
driver one delete call for exactly `h`, the identifier held before the
destruction, and afterwards the wrapper's stored identifier is the sentinel
`0xFFFFFFFF`, whatever `h` was. -/
theorem void_buffer_dtor_deletes_then_sentinel (w : World) (b : void_buffer) :
    (void_buffer.dtor w b).gl.log = w.gl.log ++ [Call.deleteBuffers 1 [base.value w.mem b]]
    ∧ base.value (void_buffer.dtor w b).mem b = 0xFFFFFFFF
    ∧ sentinel = 0xFFFFFFFF := by
  refine ⟨?_, ?_, by decide⟩
  · simp [void_buffer.dtor, glDeleteBuffers, Driver.record, Memory.read_array, base.value,
      List.range_succ]
  · simp [void_buffer.dtor, glDeleteBuffers, base.set_value, base.value, Memory.write]
    decide

/-! ## The typed view: element counts and byte sizes -/

theorem void_buffer_get_subdata_log (w : World) (b : void_buffer) (offset size : Int)
    (out : List Nat) :
    (void_buffer.get_subdata w b offset size out).2.gl.log
      = w.gl.log ++ [Call.getNamedBufferSubData (base.value w.mem b) offset size] := by
  simp only [void_buffer.get_subdata, glGetNamedBufferSubData, Driver.record, Driver.fail]
  split
  · rfl
  · split <;> rfl

theorem void_buffer_data_log (w : World) (b : void_buffer) (size : Int)
    (data : Option (List Nat)) (usage : Nat) :
    (void_buffer.data w b size data usage).gl.log
      = w.gl.log ++ [Call.namedBufferData (base.value w.mem b) size data usage] := by
  simp only [void_buffer.data, glNamedBufferData, Driver.record, Driver.fail]
  split
  · rfl
  · split
    · rfl
    · split <;> rfl

theorem void_buffer_subdata_log (w : World) (b : void_buffer) (offset size : Int)
    (data : Option (List Nat)) :
    (void_buffer.subdata w b offset size data).gl.log
      = w.gl.log ++ [Call.namedBufferSubData (base.value w.mem b) offset size data] := by
  simp only [void_buffer.subdata, glNamedBufferSubData, Driver.record, Driver.fail]
  split
  · rfl
  · split
    · split <;> rfl
    · rfl

theorem void_buffer_storage_log (w : World) (b : void_buffer) (size : Int)
    (data : Option (List Nat)) (flags : buffer_storage_bits) :
    (void_buffer.storage w b size data flags).gl.log
      = w.gl.log ++ [Call.namedBufferStorage (base.value w.mem b) size data flags.bitfield] := by
  simp only [void_buffer.storage, glNamedBufferStorage, Driver.record, Driver.fail]
  split
  · rfl
  · split
    · rfl
    · split <;> rfl

theorem void_buffer_copydata_log (w : World) (b dest : void_buffer)
    (readOffset writeOffset size : Int) :
    (void_buffer.copydata w b dest readOffset writeOffset size).gl.log
      = w.gl.log ++ [Call.copyNamedBufferSubData (base.value w.mem b) (base.value w.mem dest)
          readOffset writeOffset size] := by
  simp only [void_buffer.copydata, glCopyNamedBufferSubData, Driver.record, Driver.fail]
  split
  · split <;> rfl
  · rfl

/-- C4: when `c * sizeof(T)` is representable in the size type of the untyped
operation (`GLsizei` for `get_subdata`, `data`, `subdata`, `storage`, with the
count `c`; `GLsizeiptr` for `copydata`, with the count `c64`), each
pointer-taking operation of the typed view is the untyped operation at the byte
size `c * sizeof(T)`, on the same handle, with the same offsets, data pointer,
usage hint and flags; the driver receives exactly that one call. -/
theorem typed_ops_delegate_byte_size (sizeofT : Nat) (c c64 : Int) (w : World)
    (b dest : structured_buffer) (offset readOffset writeOffset : Int) (out : List Nat)
    (data : Option (List Nat)) (usage flags : Nat)
    (h32 : -2 ^ 31 ≤ c * sizeofT ∧ c * sizeofT < 2 ^ 31)
    (h64 : -2 ^ 63 ≤ c64 * sizeofT ∧ c64 * sizeofT < 2 ^ 63) :
    structured_buffer.get_subdata sizeofT w b offset c out
        = void_buffer.get_subdata w b offset (c * sizeofT) out
    ∧ structured_buffer.data sizeofT w b c data usage
        = void_buffer.data w b (c * sizeofT) data usage
    ∧ structured_buffer.subdata sizeofT w b offset c data
        = void_buffer.subdata w b offset (c * sizeofT) data
    ∧ structured_buffer.storage sizeofT w b c data flags
        = void_buffer.storage w b (c * sizeofT) data ⟨flags⟩
    ∧ structured_buffer.copydata sizeofT w b dest readOffset writeOffset c64
        = void_buffer.copydata w b dest readOffset writeOffset (c64 * sizeofT)
    ∧ (structured_buffer.get_subdata sizeofT w b offset c out).2.gl.log
        = w.gl.log ++ [Call.getNamedBufferSubData (base.value w.mem b) offset (c * sizeofT)]
    ∧ (structured_buffer.data sizeofT w b c data usage).gl.log
        = w.gl.log ++ [Call.namedBufferData (base.value w.mem b) (c * sizeofT) data usage]
    ∧ (structured_buffer.subdata sizeofT w b offset c data).gl.log
        = w.gl.log ++ [Call.namedBufferSubData (base.value w.mem b) offset (c * sizeofT) data]
    ∧ (structured_buffer.storage sizeofT w b c data flags).gl.log
        = w.gl.log ++ [Call.namedBufferStorage (base.value w.mem b) (c * sizeofT) data flags]
    ∧ (structured_buffer.copydata sizeofT w b dest readOffset writeOffset c64).gl.log
        = w.gl.log ++ [Call.copyNamedBufferSubData (base.value w.mem b) (base.value w.mem dest)
            readOffset writeOffset (c64 * sizeofT)] := by
  have e32 : as_GLsizei (mul_sizeof c sizeofT) = c * sizeofT := by
    rw [as_GLsizei_mul_sizeof, wrap_signed_32_of_range _ h32]
  have e64 : as_GLsizeiptr (mul_sizeof c64 sizeofT) = c64 * sizeofT := by
    rw [as_GLsizeiptr_mul_sizeof, wrap_signed_64_of_range _ h64]
  simp only [structured_buffer.get_subdata, structured_buffer.data, structured_buffer.subdata,
    structured_buffer.storage, structured_buffer.copydata, e32, e64, true_and]
  exact ⟨void_buffer_get_subdata_log _ _ _ _ _, void_buffer_data_log _ _ _ _ _,
    void_buffer_subdata_log _ _ _ _ _, void_buffer_storage_log _ _ _ _ _,
    void_buffer_copydata_log _ _ _ _ _ _⟩

/-- Witness of C4: a view over 4-byte elements, 3 elements for the `GLsizei`
operations and 5 for `copydata`. -/
theorem typed_ops_delegate_byte_size_witness :
    structured_buffer.subdata 4 world0 ⟨0⟩ 8 3 (some [1, 2, 3, 4, 5, 6, 7, 8, 9, 10, 11, 12])
        = void_buffer.subdata world0 ⟨0⟩ 8 12 (some [1, 2, 3, 4, 5, 6, 7, 8, 9, 10, 11, 12])
    ∧ structured_buffer.copydata 4 world0 ⟨0⟩ ⟨1⟩ 0 0 5
        = void_buffer.copydata world0 ⟨0⟩ ⟨1⟩ 0 0 20 := by
  have h := typed_ops_delegate_byte_size 4 3 5 world0 ⟨0⟩ ⟨1⟩ 8 0 0 []
    (some [1, 2, 3, 4, 5, 6, 7, 8, 9, 10, 11, 12]) GL_STATIC_DRAW GL_DYNAMIC_STORAGE_BIT
    (by decide) (by decide)
  exact ⟨h.2.2.1, h.2.2.2.2.1⟩

/-- C10: for every element count `c` and every `sizeof(T)`, the typed
`get_subdata`, `data`, `subdata` and `storage` hand the untyped operation the
byte size `(c * sizeof(T)) mod 2 ^ 32` read as a signed 32-bit integer, which is
`c * sizeof(T)` itself when `0 ≤ c * sizeof(T) < 2 ^ 31`; the typed operation
has no failure path and the driver call is made (it is the one call added to the
log) also when the product wraps; `copydata` hands over
`(c * sizeof(T)) mod 2 ^ 64` read as a signed 64-bit integer. -/
theorem typed_ops_wrap_byte_size (sizeofT : Nat) (c : Int) (w : World)
    (b dest : structured_buffer) (offset readOffset writeOffset : Int) (out : List Nat)
    (data : Option (List Nat)) (usage flags : Nat) :
    structured_buffer.get_subdata sizeofT w b offset c out
        = void_buffer.get_subdata w b offset (wrap_signed 32 (c * sizeofT)) out
    ∧ structured_buffer.data sizeofT w b c data usage
        = void_buffer.data w b (wrap_signed 32 (c * sizeofT)) data usage
    ∧ structured_buffer.subdata sizeofT w b offset c data
        = void_buffer.subdata w b offset (wrap_signed 32 (c * sizeofT)) data
    ∧ structured_buffer.storage sizeofT w b c data flags
        = void_buffer.storage w b (wrap_signed 32 (c * sizeofT)) data ⟨flags⟩
    ∧ structured_buffer.copydata sizeofT w b dest readOffset writeOffset c
        = void_buffer.copydata w b dest readOffset writeOffset (wrap_signed 64 (c * sizeofT))
    ∧ (structured_buffer.get_subdata sizeofT w b offset c out).2.gl.log
        = w.gl.log ++ [Call.getNamedBufferSubData (base.value w.mem b) offset
            (wrap_signed 32 (c * sizeofT))]
    ∧ (structured_buffer.data sizeofT w b c data usage).gl.log
        = w.gl.log ++ [Call.namedBufferData (base.value w.mem b)
            (wrap_signed 32 (c * sizeofT)) data usage]
    ∧ (structured_buffer.subdata sizeofT w b offset c data).gl.log
        = w.gl.log ++ [Call.namedBufferSubData (base.value w.mem b) offset
            (wrap_signed 32 (c * sizeofT)) data]
    ∧ (structured_buffer.storage sizeofT w b c data flags).gl.log
        = w.gl.log ++ [Call.namedBufferStorage (base.value w.mem b)
            (wrap_signed 32 (c * sizeofT)) data flags]
    ∧ (structured_buffer.copydata sizeofT w b dest readOffset writeOffset c).gl.log
        = w.gl.log ++ [Call.copyNamedBufferSubData (base.value w.mem b) (base.value w.mem dest)
            readOffset writeOffset (wrap_signed 64 (c * sizeofT))]
    ∧ (0 ≤ c * sizeofT ∧ c * sizeofT < 2 ^ 31 → wrap_signed 32 (c * sizeofT) = c * sizeofT)
    ∧ wrap_signed 32 (c * sizeofT) % 2 ^ 32 = (c * sizeofT) % 2 ^ 32
    ∧ -2 ^ 31 ≤ wrap_signed 32 (c * sizeofT) ∧ wrap_signed 32 (c * sizeofT) < 2 ^ 31 := by
  simp only [structured_buffer.get_subdata, structured_buffer.data, structured_buffer.subdata,
    structured_buffer.storage, structured_buffer.copydata, as_GLsizei_mul_sizeof,
    as_GLsizeiptr_mul_sizeof, true_and]
  refine ⟨void_buffer_get_subdata_log _ _ _ _ _, void_buffer_data_log _ _ _ _ _,
    void_buffer_subdata_log _ _ _ _ _, void_buffer_storage_log _ _ _ _ _,
    void_buffer_copydata_log _ _ _ _ _ _, ?_, ?_, ?_, ?_⟩
  · intro h
    exact wrap_signed_32_of_range _ ⟨by omega, h.2⟩
  all_goals
    unfold wrap_signed
    generalize c * (sizeofT : Int) = z
    norm_num
    omega

/-- Witness of C10: `2 ^ 30` elements of 4 bytes wrap to the byte size 0 and
`2 ^ 29` elements wrap to `-2 ^ 31`; the driver call is made with that size. -/
theorem typed_ops_wrap_byte_size_witness :
    (structured_buffer.subdata 4 world0 ⟨0⟩ 0 (2 ^ 30) none).gl.log
        = [Call.namedBufferSubData 0xCDCDCDCD 0 0 none]
    ∧ (structured_buffer.data 4 world0 ⟨0⟩ (2 ^ 29) none GL_STATIC_DRAW).gl.log
        = [Call.namedBufferData 0xCDCDCDCD (-2147483648) none GL_STATIC_DRAW]
    ∧ wrap_signed 32 (3 * 4) = 12 := by
  have h1 := typed_ops_wrap_byte_size 4 (2 ^ 30) world0 ⟨0⟩ ⟨0⟩ 0 0 0 [] none
    GL_STATIC_DRAW GL_DYNAMIC_STORAGE_BIT
  have h2 := typed_ops_wrap_byte_size 4 (2 ^ 29) world0 ⟨0⟩ ⟨0⟩ 0 0 0 [] none
    GL_STATIC_DRAW GL_DYNAMIC_STORAGE_BIT
  have h3 := typed_ops_wrap_byte_size 4 3 world0 ⟨0⟩ ⟨0⟩ 0 0 0 [] none
    GL_STATIC_DRAW GL_DYNAMIC_STORAGE_BIT
  refine ⟨?_, ?_, ?_⟩
  · rw [h1.2.2.2.2.2.2.2.1]
    decide
  · rw [h2.2.2.2.2.2.2.1]
    decide
  · exact h3.2.2.2.2.2.2.2.2.2.2.1 (by decide)

/-! ## Client memory: lemmas -/

theorem map_range_getD (f : Nat → Nat) (n i : Nat) (h : i < n) :
    ((List.range n).map f).getD i 0 = f i := by
  simp [List.getD, h]

theorem write_array_cell (m : Memory) (p : Nat) (vs : List Nat) (i : Nat) (h : i < vs.length) :
    (m.write_array p vs).cell (p + i) = vs.getD i 0 := by
  simp [Memory.write_array, h]

theorem zipWith_range_map {α β : Type} (f : Nat → β) (ts : List α) (l : List Nat)
    (h : l.length = ts.length) :
    List.zipWith (fun _ i => f i) ts l = l.map f := by
  induction ts generalizing l with
  | nil => cases l with
    | nil => rfl
    | cons x l => simp at h
  | cons t ts ih => cases l with
    | nil => simp at h
    | cons x l =>
      simp only [List.zipWith_cons_cons, List.map_cons]
      rw [ih l (by simpa using h)]

theorem zipWith_left_id {α β : Type} (ts : List α) (l : List β)
    (h : l.length = ts.length) :
    List.zipWith (fun t _ => t) ts l = ts := by
  induction ts generalizing l with
  | nil => cases l with
    | nil => rfl
    | cons x l => simp at h
  | cons t ts ih => cases l with
    | nil => simp at h
    | cons x l =>
      simp only [List.zipWith_cons_cons]
      rw [ih l (by simpa using h)]

theorem as_GLsizei_of_lt (n : Nat) (h : n < 2 ^ 31) : as_GLsizei n = (n : Int) := by
  unfold as_GLsizei to_signed
  norm_num at h ⊢
  split <;> omega

/-! ## Batch construction -/

/-- C6: for every type list (given by the `sizeof` of its types, `n` of them),
`create<T...>()` hands the driver exactly one call, a buffer creation for `n`
identifiers, and returns `n` views in the order of the type list, the `i`-th
holding the `i`-th identifier that call produced; when the identifiers produced
are pairwise distinct, so are the identifiers the views hold. -/
theorem create_tuple_one_batched_call (w : World) (ts : List Nat) (hn : ts.length < 2 ^ 31) :
    (structured_buffer.create_tuple w ts).2.gl.log
        = w.gl.log ++ [Call.createBuffers ts.length w.mem.brk]
    ∧ (structured_buffer.create_tuple w ts).1.length = ts.length
    ∧ (structured_buffer.create_tuple w ts).1.map Prod.fst = ts
    ∧ (structured_buffer.create_tuple w ts).1.map
          (fun x => base.value (structured_buffer.create_tuple w ts).2.mem x.2)
        = (List.range ts.length).map (fun i => w.gl.names (w.gl.issued + i))
    ∧ (((List.range ts.length).map (fun i => w.gl.names (w.gl.issued + i))).Nodup →
        ((structured_buffer.create_tuple w ts).1.map
          (fun x => base.value (structured_buffer.create_tuple w ts).2.mem x.2)).Nodup) := by
  have hids : (structured_buffer.create_tuple w ts).1.map
          (fun x => base.value (structured_buffer.create_tuple w ts).2.mem x.2)
        = (List.range ts.length).map (fun i => w.gl.names (w.gl.issued + i)) := by
    simp only [structured_buffer.create_tuple, structured_buffer._make_tuple,
      structured_buffer.ctor_adopt, void_buffer.ctor_adopt, base.set_object, base.value,
      Memory.alloc, glCreateBuffers, as_GLsizei_of_lt _ hn, Driver.record]
    have hneg : ¬ ((ts.length : Int) < 0) := by omega
    simp only [hneg, if_false, List.map_zipWith, Int.toNat_ofNat]
    rw [zipWith_range_map _ ts _ (by simp)]
    apply List.map_congr_left
    intro i hi
    have hi2 : i < ts.length := List.mem_range.mp hi
    rw [write_array_cell _ _ _ _ (by simpa using hi2), map_range_getD _ _ _ hi2]
  refine ⟨?_, ?_, ?_, hids, ?_⟩
  · simp only [structured_buffer.create_tuple, glCreateBuffers, as_GLsizei_of_lt _ hn,
      Driver.record, Memory.alloc]
    split <;> rfl
  · simp [structured_buffer.create_tuple, structured_buffer._make_tuple]
  · simp only [structured_buffer.create_tuple, structured_buffer._make_tuple]
    rw [List.map_zipWith]
    exact zipWith_left_id ts _ (by simp)
  · intro h
    rw [hids]
    exact h

/-- Witness of C6: the spec's case of three types, of sizes 4, 8 and 1, on a
driver that hands out the names 1, 2, 3. -/
theorem create_tuple_one_batched_call_witness :
    (structured_buffer.create_tuple world0 [4, 8, 1]).2.gl.log = [Call.createBuffers 3 0]
    ∧ (structured_buffer.create_tuple world0 [4, 8, 1]).1.map
          (fun x => base.value (structured_buffer.create_tuple world0 [4, 8, 1]).2.mem x.2)
        = [1, 2, 3]
    ∧ ((structured_buffer.create_tuple world0 [4, 8, 1]).1.map
          (fun x => base.value (structured_buffer.create_tuple world0 [4, 8, 1]).2.mem x.2)).Nodup := by
  have h := create_tuple_one_batched_call world0 [4, 8, 1] (by decide)
  exact ⟨h.1, h.2.2.2.1, h.2.2.2.2 (by decide)⟩

theorem void_buffer_dtor_log (w : World) (b : void_buffer) :
    (void_buffer.dtor w b).gl.log = w.gl.log ++ [Call.deleteBuffers 1 [base.value w.mem b]] := by
  simp [void_buffer.dtor, glDeleteBuffers, Driver.record, Memory.read_array, base.value,
    List.range_succ]

theorem glCreateBuffers_log (w : World) (n : Int) (p : Nat) :
    (glCreateBuffers w n p).gl.log = w.gl.log ++ [Call.createBuffers n p] := by
  simp only [glCreateBuffers, Driver.record, Driver.fail]
  split <;> rfl

theorem destroy_all_log (w : World) (bs : List structured_buffer) :
    ∃ l, (destroy_all w bs).gl.log = w.gl.log ++ l := by
  induction bs generalizing w with
  | nil => exact ⟨[], by simp [destroy_all]⟩
  | cons b bs ih =>
    obtain ⟨l, hl⟩ := ih (void_buffer.dtor w b)
    refine ⟨Call.deleteBuffers 1 [base.value w.mem b] :: l, ?_⟩
    rw [destroy_all, hl, void_buffer_dtor_log, List.append_assoc, List.singleton_append]

theorem create_step_log (grow : Nat → Nat) (objects : Nat) (s : buffer_vector × World)
    (pt : Nat) :
    ∃ l, (structured_buffer.create_step grow objects s pt).2.gl.log = s.2.gl.log ++ l := by
  simp only [structured_buffer.create_step, buffer_vector.push_back]
  split
  · exact ⟨_, void_buffer_dtor_log _ _⟩
  · obtain ⟨l, hl⟩ := destroy_all_log s.2 s.1.elems
    refine ⟨l ++ [Call.deleteBuffers 1 [base.value (destroy_all s.2 s.1.elems).mem
      (structured_buffer.ctor_adopt (objects + pt))]], ?_⟩
    rw [void_buffer_dtor_log, hl, List.append_assoc]

theorem create_loop_log (grow : Nat → Nat) (objects : Nat) (pts : List Nat)
    (s : buffer_vector × World) :
    ∃ l, (pts.foldl (structured_buffer.create_step grow objects) s).2.gl.log
      = s.2.gl.log ++ l := by
  induction pts generalizing s with
  | nil => exact ⟨[], by simp⟩
  | cons pt pts ih =>
    obtain ⟨l1, h1⟩ := create_step_log grow objects s pt
    obtain ⟨l2, h2⟩ := ih (structured_buffer.create_step grow objects s pt)
    refine ⟨l1 ++ l2, ?_⟩
    rw [List.foldl_cons, h2, h1, List.append_assoc]

/-- For every count `n ≥ 1`, every state and every growth policy, `create(n)`
returns, and the first call it hands the driver is the deletion of whatever the
first, not yet written identifier cell holds; the creation call is the last. -/
theorem create_deletes_before_creating (grow : Nat → Nat) (w : World) (n : Int) (hn : 1 ≤ n) :
    ∃ r l, structured_buffer.create grow w n = some r
      ∧ r.2.gl.log = w.gl.log ++ Call.deleteBuffers 1 [w.mem.cell w.mem.brk] :: l
          ++ [Call.createBuffers n w.mem.brk] := by
  obtain ⟨k, hk⟩ : ∃ k, n.toNat = k + 1 := ⟨n.toNat - 1, by omega⟩
  have hneg : ¬ n < 0 := by omega
  simp only [structured_buffer.create, hneg, if_false, hk, Memory.alloc]
  rw [List.range_succ_eq_map, List.foldl_cons]
  obtain ⟨l, hl⟩ := create_loop_log grow w.mem.brk (List.map Nat.succ (List.range k))
    (structured_buffer.create_step grow w.mem.brk
      ({ elems := [], capacity := 0 }, { w with mem := { w.mem with brk := w.mem.brk + (k + 1) } }) 0)
  refine ⟨_, l, rfl, ?_⟩
  rw [glCreateBuffers_log, hl]
  simp [structured_buffer.create_step, buffer_vector.push_back, destroy_all,
    void_buffer_dtor_log, base.value, structured_buffer.ctor_adopt, void_buffer.ctor_adopt,
    base.set_object]

/-- C7 (evaluation at `n = 1`): for every state and every growth policy of the
vector, `create(1)` hands the driver two calls: the destructor of the temporary
view deletes whatever the not yet written identifier cell holds, and only then
the buffer is created. One view is returned and it holds the created
identifier. -/
theorem create_one_deletes_before_creating (grow : Nat → Nat) (w : World) :
    (structured_buffer.create grow w 1).map
        (fun r => (r.1, r.2.gl.log, r.1.map (base.value r.2.mem)))
      = some ([⟨w.mem.brk⟩],
          w.gl.log ++ [Call.deleteBuffers 1 [w.mem.cell w.mem.brk],
            Call.createBuffers 1 w.mem.brk],
          [w.gl.names w.gl.issued]) := by
  simp [structured_buffer.create, structured_buffer.create_step, buffer_vector.push_back,
    destroy_all, void_buffer.dtor, glDeleteBuffers, glCreateBuffers, Driver.record,
    Memory.alloc, Memory.read_array, Memory.write_array, base.set_value, base.value,
    Memory.write, structured_buffer.ctor_adopt, void_buffer.ctor_adopt, base.set_object,
    List.range_succ]

/-! ## Binding scopes -/

/-- C1 (counterexample): a scope at slot 3 of the shader-storage category holds
the buffer named 2 and slot 0 holds the buffer named 1. Destroying the scope
hands the driver `glBindBufferBase(target, 3, 0)`: afterwards slot 3 is unbound
and slot 0 still holds the buffer named 1. -/
theorem scope_teardown_unbinds_slot_3_not_0 :
    scope_teardown_scenario.1.gl.indexed GL_SHADER_STORAGE_BUFFER 3 = 2
    ∧ scope_teardown_scenario.1.gl.indexed GL_SHADER_STORAGE_BUFFER 0 = 1
    ∧ (buffer_binding.dtor scope_teardown_scenario.1 scope_teardown_scenario.2).gl.log
        = scope_teardown_scenario.1.gl.log ++ [Call.bindBufferBase GL_SHADER_STORAGE_BUFFER 3 0]
    ∧ (buffer_binding.dtor scope_teardown_scenario.1 scope_teardown_scenario.2).gl.indexed GL_SHADER_STORAGE_BUFFER 3 = 0
    ∧ (buffer_binding.dtor scope_teardown_scenario.1 scope_teardown_scenario.2).gl.indexed GL_SHADER_STORAGE_BUFFER 0 = 1
    ∧ ¬ ((buffer_binding.dtor scope_teardown_scenario.1 scope_teardown_scenario.2).gl.indexed GL_SHADER_STORAGE_BUFFER 0 = 0
          ∧ (buffer_binding.dtor scope_teardown_scenario.1 scope_teardown_scenario.2).gl.indexed GL_SHADER_STORAGE_BUFFER 3 = 2) := by
  decide

/-- C1 (amended): a scope constructed with the slot number `s` stores `s`, and
destroying a scope hands the driver one bind-base call for the scope's category
whose index is the scope's own slot number and whose buffer is the null handle:
afterwards the scope's own slot is unbound and every other indexed binding
point, slot 0 included when the scope's slot is not 0, holds what it held. -/
theorem scope_dtor_unbinds_own_slot (w : World) (s : buffer_binding) (c : _buffer_context)
    (n : Nat) :
    base.value (buffer_binding.ctor w c n).2.mem (buffer_binding.ctor w c n).1.self = n
    ∧ (buffer_binding.dtor w s).gl.log
        = w.gl.log ++ [Call.bindBufferBase (base.value w.mem s.gltarget) (base.value w.mem s.self) 0]
    ∧ (buffer_binding.dtor w s).gl.indexed (base.value w.mem s.gltarget) (base.value w.mem s.self) = 0
    ∧ (∀ t i, ¬ (t = base.value w.mem s.gltarget ∧ i = base.value w.mem s.self) →
        (buffer_binding.dtor w s).gl.indexed t i = w.gl.indexed t i) := by
  refine ⟨?_, ?_, ?_, ?_⟩
  · simp [buffer_binding.ctor, base.allocate, Memory.alloc, base.set_value, base.value,
      Memory.write]
  · rfl
  · simp [buffer_binding.dtor, glBindBufferBase]
  · intro t i h
    simp [buffer_binding.dtor, glBindBufferBase, Driver.record, h]

/-- Witness of the amended C1, on the scenario of the scope at slot 3: slot 0 is
another binding point and keeps the buffer named 1. -/
theorem scope_dtor_unbinds_own_slot_witness :
    (buffer_binding.dtor scope_teardown_scenario.1 scope_teardown_scenario.2).gl.indexed GL_SHADER_STORAGE_BUFFER 0
      = scope_teardown_scenario.1.gl.indexed GL_SHADER_STORAGE_BUFFER 0 :=
  (scope_dtor_unbinds_own_slot scope_teardown_scenario.1 scope_teardown_scenario.2 ⟨0⟩ 0).2.2.2
    GL_SHADER_STORAGE_BUFFER 0 (by decide)

/-- C2 (evaluation at two views): a scope at slot 3 binds the collection of the
views named 1 and 2. The driver is handed the count 2 and the address of the
local `handler`, which holds the first name only; the second name it reads is
whatever follows `handler` in memory (`0xCDCDCDCD` here), and slot 4 holds that
value, not the name 2 of the second view. -/
theorem bind_vector_passes_first_handle_only :
    multi_bind_scenario.map (fun w => (w.gl.log.getLast?,
        w.gl.indexed GL_SHADER_STORAGE_BUFFER 3, w.gl.indexed GL_SHADER_STORAGE_BUFFER 4))
      = some (some (Call.bindBuffersBase GL_SHADER_STORAGE_BUFFER 3 2 [1, 0xCDCDCDCD]),
          1, 0xCDCDCDCD) := by
  decide

/-- The batched bind reads no view but the first: two collections of the same
length with the same first view give the same result. -/
theorem bind_vector_ignores_tail (w : World) (s : buffer_binding) (b0 : structured_buffer)
    (rest rest2 : List structured_buffer) (h : rest.length = rest2.length) :
    buffer_binding.bind_vector w s (b0 :: rest) = buffer_binding.bind_vector w s (b0 :: rest2) := by
  simp [buffer_binding.bind_vector, h]

/-- C3 (evaluation): the constructor of a scope makes no driver call, but
`create_binding` also destroys the scope it constructed: for every allocated
category `c` and slot `s` the request adds the call
`glBindBufferBase(target, s, 0)` to the driver's log and leaves slot `s` of the
category unbound. The object the returned reference refers to stores the
category and the slot. -/
theorem create_binding_issues_unbind_call (w : World) (c : _buffer_context) (s : Nat)
    (hc : c.globj < w.mem.brk) :
    (_buffer_context.create_binding w c s).1.gltarget = c
    ∧ base.value (_buffer_context.create_binding w c s).2.mem
        (_buffer_context.create_binding w c s).1.self = s
    ∧ (buffer_binding.ctor w c s).2.gl = w.gl
    ∧ (_buffer_context.create_binding w c s).2.gl.log
        = w.gl.log ++ [Call.bindBufferBase (base.value w.mem c) s 0]
    ∧ (_buffer_context.create_binding w c s).2.gl.indexed (base.value w.mem c) s = 0 := by
  have hne : c.globj ≠ w.mem.brk := by omega
  refine ⟨rfl, ?_, rfl, ?_, ?_⟩
  · simp [_buffer_context.create_binding, buffer_binding.ctor, buffer_binding.dtor,
      base.allocate, Memory.alloc, base.set_value, base.value, Memory.write]
  · simp [_buffer_context.create_binding, buffer_binding.ctor, buffer_binding.dtor,
      base.allocate, Memory.alloc, base.set_value, base.value, Memory.write, glBindBufferBase,
      Driver.record, hne]
  · simp [_buffer_context.create_binding, buffer_binding.ctor, buffer_binding.dtor,
      base.allocate, Memory.alloc, base.set_value, base.value, Memory.write, glBindBufferBase,
      Driver.record, hne]

/-- Witness of C3: a scope at slot 3 is requested from the shader-storage
category; the driver's log, empty before, holds one call afterwards. -/
theorem create_binding_issues_unbind_call_witness :
    shader_storage_scenario.2.gl.log = []
    ∧ (_buffer_context.create_binding shader_storage_scenario.2 shader_storage_scenario.1 3).2.gl.log
        = [Call.bindBufferBase GL_SHADER_STORAGE_BUFFER 3 0] := by
  have h := create_binding_issues_unbind_call shader_storage_scenario.2
    shader_storage_scenario.1 3 (by decide)
  exact ⟨rfl, h.2.2.2.1⟩

/-! ## The ranged write -/

/-- C8 (counterexample): with the size argument 8 the typed `subdata` asks the
driver for a write of `8 * 4 = 32` bytes at byte offset 4 of a store of 16
bytes; the driver rejects the call and the read-back is `[1, 2, 3, 4]`. -/
theorem write_range_size_8_is_rejected :
    (write_range_scenario 8).1 = [1, 2, 3, 4]
    ∧ (write_range_scenario 8).2.gl.errors = [Fault.invalid_value]
    ∧ (write_range_scenario 8).2.gl.log.get? 2
        = some (Call.namedBufferSubData 1 4 32 (some [9, 0, 0, 0, 9, 0, 0, 0]))
    ∧ (write_range_scenario 8).1 ≠ [1, 9, 9, 4] := by
  decide

/-- C8 (amended): with byte offset 4 and the element count 2 as the size
argument, the typed `subdata` writes the two elements 9, 9 and the read-back is
`[1, 9, 9, 4]`; the vector overload `subdata(4, [9, 9])` and the untyped
`subdata(4, 8, data)` give the same read-back. -/
theorem write_range_count_2_round_trip :
    (write_range_scenario 2).1 = [1, 9, 9, 4]
    ∧ (write_range_scenario 2).2.gl.errors = []
    ∧ (write_range_scenario 2).2.gl.log.get? 2
        = some (Call.namedBufferSubData 1 4 8 (some [9, 0, 0, 0, 9, 0, 0, 0]))
    ∧ write_range_vector_scenario.1 = [1, 9, 9, 4]
    ∧ write_range_untyped_scenario.1 = [1, 9, 9, 4] := by
  decide

/-! ## Round trip through the byte store -/

theorem encode_all_length {α : Type} (E : ElemType α) (v : List α) :
    (encode_all E v).length = v.length * E.size := by
  induction v with
  | nil => simp [encode_all]
  | cons a v ih =>
    simp only [encode_all, List.length_append, List.length_cons, E.enc_length, ih]
    ring

theorem decode_all_encode_all {α : Type} (E : ElemType α) (v : List α) (rest : List Nat) :
    decode_all E v.length (encode_all E v ++ rest) = v := by
  induction v with
  | nil => rfl
  | cons a v ih =>
    simp only [encode_all, decode_all, List.length_cons, List.append_assoc]
    rw [List.take_left' (E.enc_length a), List.drop_left' (E.enc_length a), E.dec_enc, ih]

theorem splice_length (st : List Nat) (o : Nat) (bs : List Nat) (h : o + bs.length ≤ st.length) :
    (splice st o bs).length = st.length := by
  simp only [splice, List.length_append, List.length_take, List.length_drop]
  omega

theorem splice_read (st : List Nat) (o : Nat) (bs : List Nat) (h : o + bs.length ≤ st.length) :
    ((splice st o bs).drop o).take bs.length = bs := by
  have h1 : (st.take o).length = o := by simp; omega
  simp only [splice, List.append_assoc]
  rw [List.drop_left' h1, List.take_left' rfl]

theorem subdata_then_get_subdata (w : World) (b : void_buffer) (st : List Nat) (offset : Int)
    (bs out : List Nat)
    (hst : w.gl.store (base.value w.mem b) = some st)
    (h0 : 0 ≤ offset) (hin : offset + (bs.length : Int) ≤ st.length) :
    (void_buffer.get_subdata (void_buffer.subdata w b offset bs.length (some bs)) b offset
      bs.length out).1 = bs ++ out.drop bs.length := by
  have hs : (0 : Int) ≤ (bs.length : Int) := Int.ofNat_nonneg _
  have hon : offset.toNat + bs.length ≤ st.length := by omega
  simp only [void_buffer.subdata, void_buffer.get_subdata, glNamedBufferSubData,
    glGetNamedBufferSubData, hst, Driver.record, client_bytes, Int.toNat_ofNat, h0, hs, hin,
    and_self, if_true, le_refl, List.take_length, true_and, splice_length st _ bs hon]
  rw [splice_read st _ bs hon]

theorem data_then_get_subdata (w : World) (b : void_buffer) (bs out : List Nat) (usage : Nat) :
    (void_buffer.get_subdata (void_buffer.data w b bs.length (some bs) usage) b 0
      bs.length out).1 = bs ++ out.drop bs.length := by
  have hs : ¬ ((bs.length : Int) < 0) := by omega
  simp [void_buffer.data, void_buffer.get_subdata, glNamedBufferData,
    glGetNamedBufferSubData, Driver.record, client_bytes, hs]

theorem as_GLsizei_lt (n : Nat) : as_GLsizei n < 2 ^ 31 := by
  unfold as_GLsizei to_signed
  norm_num
  split <;> omega

theorem client_bytes_length (data : Option (List Nat)) (size : Nat) (bs : List Nat)
    (h : client_bytes data size = some bs) : bs.length = size := by
  unfold client_bytes at h
  cases data with
  | none =>
    simp only at h
    split at h
    · cases h; simp [*]
    · cases h
  | some l =>
    simp only at h
    split at h
    · cases h; simp [*]
    · cases h

/-- The stores that a view allocates have fewer than `2 ^ 31` bytes: `data` and
`storage` take the byte size as a `GLsizei`, and a store they leave behind is
either of that size or the store the buffer had before. -/
theorem view_store_below_2_31 (w : World) (b : void_buffer) (size : Int)
    (data : Option (List Nat)) (usage : Nat) (flags : buffer_storage_bits) (st : List Nat)
    (hs : size < 2 ^ 31) :
    ((void_buffer.data w b size data usage).gl.store (base.value w.mem b) = some st →
        st.length < 2 ^ 31 ∨ w.gl.store (base.value w.mem b) = some st)
    ∧ ((void_buffer.storage w b size data flags).gl.store (base.value w.mem b) = some st →
        st.length < 2 ^ 31 ∨ w.gl.store (base.value w.mem b) = some st) := by
  constructor
  · intro h
    simp only [void_buffer.data, glNamedBufferData, Driver.record, Driver.fail] at h
    split at h
    · exact Or.inr h
    · split at h
      · simp only [if_true] at h
        cases h
        left
        simp only [List.length_replicate]
        omega
      · split at h
        · exact Or.inr h
        · rename_i bs hb
          simp only [if_true] at h
          cases h
          left
          rw [client_bytes_length _ _ _ hb]
          omega
  · intro h
    simp only [void_buffer.storage, glNamedBufferStorage, Driver.record, Driver.fail] at h
    split at h
    · exact Or.inr h
    · split at h
      · simp only [if_true] at h
        cases h
        left
        simp only [List.length_replicate]
        omega
      · split at h
        · exact Or.inr h
        · rename_i bs hb
          simp only [if_true] at h
          cases h
          left
          rw [client_bytes_length _ _ _ hb]
          omega

theorem as_GLsizei_mul_sizeof_count (n sz : Nat) (h : n * sz < 2 ^ 31) :
    as_GLsizei (mul_sizeof (n : Int) sz) = ((n * sz : Nat) : Int) := by
  rw [as_GLsizei_mul_sizeof, wrap_signed_32_of_range]
  · push_cast; rfl
  · have h2 : ((n * sz : Nat) : Int) < 2 ^ 31 := by exact_mod_cast h
    have h3 : (0 : Int) ≤ ((n * sz : Nat) : Int) := Int.ofNat_nonneg _
    push_cast at h2 h3
    constructor <;> omega

/-- Round trip over the bounds-checked byte store through the overloads of
`get_subdata` that hand the data to the caller, for every element type and every
sequence `v` of `n ≥ 0` elements. Ranged write: when the view's buffer has a
store `st` allocated through the view (so of less than `2 ^ 31` bytes, the size
being a `GLsizei`) and the `n` elements at byte offset `offset` lie inside it,
then after `v` is written at `offset` with `subdata` (pointer overload with
count `n`, or vector overload), reading `n` elements at `offset` with
`get_subdata` (pointer overload with count `n`, or the overload that fills a
vector of `n` elements) gives exactly `v`. Full write: when `n * sizeof(T)` is a
size `data` can allocate (less than `2 ^ 31`), then after `v` is written with
`data` (pointer or vector overload), reading `n` elements at offset 0 gives
exactly `v`. -/
theorem write_then_read_round_trip {α : Type} (E : ElemType α) (w : World)
    (b : structured_buffer) (v vctr : List α) (out : List Nat) (usage : Nat)
    (hvctr : vctr.length = v.length) :
    (∀ (st : List Nat) (offset : Int),
        w.gl.store (base.value w.mem b) = some st → st.length < 2 ^ 31 → 0 ≤ offset →
        offset + ((v.length * E.size : Nat) : Int) ≤ st.length →
        ∀ w1 ∈ [structured_buffer.subdata E.size w b offset v.length (some (encode_all E v)),
                structured_buffer.subdata_vector E w b offset v],
          decode_all E v.length
              (structured_buffer.get_subdata E.size w1 b offset v.length out).1 = v
          ∧ (structured_buffer.get_subdata_vector E w1 b offset vctr).1 = v)
    ∧ (v.length * E.size < 2 ^ 31 →
        ∀ w1 ∈ [structured_buffer.data E.size w b v.length (some (encode_all E v)) usage,
                structured_buffer.data_vector E w b v usage],
          decode_all E v.length (structured_buffer.get_subdata E.size w1 b 0 v.length out).1 = v
          ∧ (structured_buffer.get_subdata_vector E w1 b 0 vctr).1 = v) := by
  have hlen := encode_all_length E v
  constructor
  · intro st offset hst hsz hoff hin
    have hlt : v.length * E.size < 2 ^ 31 := by omega
    have e1 := as_GLsizei_mul_sizeof_count v.length E.size hlt
    have e2 := as_GLsizei_size_mul_sizeof v.length E.size hlt
    have hsub := subdata_then_get_subdata w b st offset (encode_all E v)
    rw [hlen] at hsub
    simp only [structured_buffer.subdata, structured_buffer.subdata_vector,
      structured_buffer.get_subdata, structured_buffer.get_subdata_vector, hvctr, e1, e2,
      List.mem_cons, List.mem_singleton, List.not_mem_nil, or_false, or_self, forall_eq]
    refine ⟨?_, ?_⟩
    · rw [hsub out hst hoff hin]; exact decode_all_encode_all E v _
    · rw [hsub _ hst hoff hin]; exact decode_all_encode_all E v _
  · intro hlt
    have e1 := as_GLsizei_mul_sizeof_count v.length E.size hlt
    have e2 := as_GLsizei_size_mul_sizeof v.length E.size hlt
    have hdat := data_then_get_subdata w b (encode_all E v)
    rw [hlen] at hdat
    simp only [structured_buffer.data, structured_buffer.data_vector,
      structured_buffer.get_subdata, structured_buffer.get_subdata_vector, hvctr, e1, e2,
      List.mem_cons, List.mem_singleton, List.not_mem_nil, or_false, or_self, forall_eq]
    refine ⟨?_, ?_⟩
    · rw [hdat out usage]; exact decode_all_encode_all E v _
    · rw [hdat _ usage]; exact decode_all_encode_all E v _

/-- The round trip at concrete inputs: the elements 9, 9 written at byte offset
4 of a store of four `uint32_t` and read back, and 5, 6, 7 written with `data`
to a view without a store and read back. -/
theorem write_then_read_round_trip_witness :
    (structured_buffer.get_subdata_vector uint32
        (structured_buffer.subdata_vector uint32 stored_scenario.2 stored_scenario.1 4 [9, 9])
        stored_scenario.1 4 [0, 0]).1 = [9, 9]
    ∧ (structured_buffer.get_subdata_vector uint32
        (structured_buffer.data_vector uint32 (structured_buffer.ctor world0).2
          (structured_buffer.ctor world0).1 [5, 6, 7] GL_STATIC_DRAW)
        (structured_buffer.ctor world0).1 0 [0, 0, 0]).1 = [5, 6, 7] := by
  have h1 := (write_then_read_round_trip uint32 stored_scenario.2 stored_scenario.1
    [9, 9] [0, 0] [] GL_STATIC_DRAW rfl).1 (encode_all uint32 [1, 2, 3, 4]) 4
    (by decide) (by decide) (by decide) (by decide)
  have h2 := (write_then_read_round_trip uint32 (structured_buffer.ctor world0).2
    (structured_buffer.ctor world0).1 [5, 6, 7] [0, 0, 0] [] GL_STATIC_DRAW rfl).2 (by decide)
  exact ⟨(h1 _ (List.mem_cons_of_mem _ (List.mem_singleton.mpr rfl))).2,
    (h2 _ (List.mem_cons_of_mem _ (List.mem_singleton.mpr rfl))).2⟩

/-- The overload `get_subdata(offset, size)` never hands a sequence to its
caller: whatever the state, the view, the offset and the count, what can be read
through the returned reference is no vector at all. -/
theorem get_subdata_count_never_returns {α : Type} (E : ElemType α) (w : World)
    (b : structured_buffer) (offset size : Int) (v : List α) :
    (structured_buffer.get_subdata_count E w b offset size).map Prod.fst ≠ some (some v) := by
  unfold structured_buffer.get_subdata_count
  split <;> simp

/-- C9 (evaluation at the read-back by count): the elements 9, 9 are written at
byte offset 4 of a store of four `uint32_t` and `get_subdata(4, 2)` is called.
The driver is asked for the 8 bytes at offset 4 and reports no error, and the
local vector holds 9, 9 when the return statement runs; but the function returns
a reference to that local, which is destroyed on return, so the caller reads
back no vector, not the sequence 9, 9 that was written. -/
theorem get_subdata_count_returns_destroyed_vector :
    (structured_buffer.get_subdata_count_local uint32 read_back_scenario.2
        read_back_scenario.1 4 2).1 = [9, 9]
    ∧ (structured_buffer.get_subdata_count uint32 read_back_scenario.2
        read_back_scenario.1 4 2).map (fun r => (r.1, r.2.gl.log.getLast?, r.2.gl.errors))
        = some (none, some (Call.getNamedBufferSubData 1 4 8), [])
    ∧ (structured_buffer.get_subdata_count uint32 read_back_scenario.2
        read_back_scenario.1 4 2).map Prod.fst ≠ some (some [9, 9]) := by
  decide

end dgl
